import Mathlib

/-
Verification development for the JSONFS in-memory filesystem (src/main.py).

Shallow embedding conventions:
* Python `str` values are represented as `List Char`; Python `bytes` values as
  `List Nat` (one entry per byte).
* Python `dict` objects keyed by paths are represented as association lists
  (`Dict`), with first-match lookup; `dict` assignment replaces in place and
  `dict.pop` removes the entry.  `defaultdict` stores carry a boolean flag:
  `__getitem__` on a missing key inserts and returns the default only when the
  flag is set, while `pop` on a missing key raises `KeyError` regardless.
* `time()` results are modelled as an explicit `now : Nat` parameter (the time
  domain is abstracted from float to Nat; no claim depends on timestamp values).
* Exceptions (`FuseOSError`, `KeyError`, `TypeError`) are modelled by an `Err`
  result; every operation returns the result together with the post state, so
  mutations performed before a raise persist, exactly as in the source.
* The JSON text layer (`json.dumps` / `json.load`) is treated as the identity
  bridge between the structured document `Doc` and its textual form; the
  structured encoder/decoder (`dump_to_json` / `load_from_json_file`) are
  modelled directly on `Doc`.  A textual serializer `serializeDoc` modelling
  `dumps(obj, sort_keys=True, indent=2)` is provided for the snapshot-export
  branch of `getattr`.
* The source tests `k is not FSDATA` (object identity with the module-level
  constant).  For keys held in the live stores, which were inserted via that
  constant, identity coincides with string equality, and that is how the test
  is modelled.  The one internal call `self.create(FSDATA, 33204)` passes the
  module constant itself; it is modelled by the `isFsdataConst` flag.
-/

abbrev Str := List Char

abbrev Bytes := List Nat

def SEPC : Char := '/'

def FSDATA : Str := "__FSDATA__".toList

def ROOT : Str := []

def S_IFDIR : Nat := 16384

def S_IFREG : Nat := 32768

def S_IFLNK : Nat := 40960

/-- Python `str.rstrip('/')`: drop trailing separators. -/
def rstripSep (s : Str) : Str := ((s.reverse).dropWhile (fun c => c == SEPC)).reverse

/-- `posixpath.dirname`: everything before the final separator, with trailing
separators stripped unless the head is all separators. -/
def dirname (p : Str) : Str :=
  match (p.reverse).findIdx? (fun c => c == SEPC) with
  | none => []
  | some j =>
    let head := p.take (p.length - j)
    if head.isEmpty || head.all (fun c => c == SEPC) then head else rstripSep head

/-- `get_parent_dir` from the source: `os.path.dirname(os.path.dirname(path))`. -/
def get_parent_dir (p : Str) : Str := dirname (dirname p)

/-- `process_output` from the source: drop one trailing separator, then one
leading separator. -/
def process_output (path : Str) : Str :=
  let output := if path.isEmpty then path
                else if path.getLast? == some SEPC then path.dropLast else path
  if output.isEmpty then output
  else if output.head? == some SEPC then output.drop 1 else output

/-- Association-list model of a Python `dict` keyed by strings. -/
abbrev Dict (α : Type) := List (Str × α)

/-- `dict.__getitem__` / `dict.get`: first matching entry. -/
def dictFind {α : Type} : Dict α → Str → Option α
  | [], _ => none
  | (kk, v) :: rest, k => if kk = k then some v else dictFind rest k

/-- `dict.__setitem__`: replace in place or append. -/
def dictSet {α : Type} : Dict α → Str → α → Dict α
  | [], k, v => [(k, v)]
  | (kk, w) :: rest, k, v =>
    if kk = k then (kk, v) :: rest else (kk, w) :: dictSet rest k v

/-- `dict.pop k` (the removal part; presence is checked at call sites). -/
def dictPop {α : Type} : Dict α → Str → Dict α
  | [], _ => []
  | (kk, w) :: rest, k => if kk = k then rest else (kk, w) :: dictPop rest k

/-- `k in dict`. -/
def dictHas {α : Type} (m : Dict α) (k : Str) : Bool := (dictFind m k).isSome

/-- Byte in the UTF-8 continuation range `0x80..0xBF`. -/
def utf8Cont (c : Nat) : Bool := decide (128 ≤ c ∧ c ≤ 191)

/-- Strict UTF-8 validity of a byte string, as checked by Python's
`bytes.decode('UTF-8')` (rejecting overlong forms, surrogates and values above
U+10FFFF). -/
def utf8Valid : Bytes → Bool
  | [] => true
  | b :: rest =>
    if b ≤ 127 then utf8Valid rest
    else if b ≤ 193 then false
    else if b ≤ 223 then
      match rest with
      | c :: r => utf8Cont c && utf8Valid r
      | [] => false
    else if b ≤ 239 then
      match rest with
      | c :: d :: r =>
        (if b = 224 then decide (160 ≤ c ∧ c ≤ 191)
         else if b = 237 then decide (128 ≤ c ∧ c ≤ 159)
         else utf8Cont c) && utf8Cont d && utf8Valid r
      | _ => false
    else if b ≤ 244 then
      match rest with
      | c :: d :: e :: r =>
        (if b = 240 then decide (144 ≤ c ∧ c ≤ 191)
         else if b = 244 then decide (128 ≤ c ∧ c ≤ 143)
         else utf8Cont c) && utf8Cont d && utf8Cont e && utf8Valid r
      | _ => false
    else false

/-- Base64 alphabet, by 6-bit value. -/
def b64chr (n : Nat) : Char :=
  if n < 26 then Char.ofNat (65 + n)
  else if n < 52 then Char.ofNat (71 + n)
  else if n < 62 then Char.ofNat (n - 4)
  else if n = 62 then '+' else '/'

/-- `base64.b64encode` on raw bytes, producing the ASCII text. -/
def b64encode : Bytes → Str
  | [] => []
  | [a] => [b64chr (a / 4), b64chr (a % 4 * 16), '=', '=']
  | [a, b] => [b64chr (a / 4), b64chr (a % 4 * 16 + b / 16), b64chr (b % 16 * 4), '=']
  | a :: b :: c :: rest =>
    b64chr (a / 4) :: b64chr (a % 4 * 16 + b / 16) :: b64chr (b % 16 * 4 + c / 64) ::
      b64chr (c % 64) :: b64encode rest

/-- Value of a base64 alphabet character. -/
def b64val (c : Char) : Nat :=
  let n := c.toNat
  if 65 ≤ n ∧ n ≤ 90 then n - 65
  else if 97 ≤ n ∧ n ≤ 122 then n - 71
  else if 48 ≤ n ∧ n ≤ 57 then n + 4
  else if c = '+' then 62
  else if c = '/' then 63
  else 0

/-- `base64.b64decode` on ASCII text (groups of four characters, with `=`
padding). -/
def b64decode : Str → Bytes
  | c1 :: c2 :: c3 :: c4 :: rest =>
    let v1 := b64val c1
    let v2 := b64val c2
    if c3 = '=' then [v1 * 4 + v2 / 16]
    else
      let v3 := b64val c3
      if c4 = '=' then [v1 * 4 + v2 / 16, v2 % 16 * 16 + v3 / 4]
      else (v1 * 4 + v2 / 16) :: (v2 % 16 * 16 + v3 / 4) ::
             (v3 % 4 * 64 + b64val c4) :: b64decode rest
  | _ => []

/-- UTF-8 encoding of one character (`str.encode('UTF-8')`, per code point). -/
def utf8EncodeChar (c : Char) : Bytes :=
  let n := c.toNat
  if n < 128 then [n]
  else if n < 2048 then [192 + n / 64, 128 + n % 64]
  else if n < 65536 then [224 + n / 4096, 128 + n / 64 % 64, 128 + n % 64]
  else [240 + n / 262144, 128 + n / 4096 % 64, 128 + n / 64 % 64, 128 + n % 64]

/-- `str.encode('UTF-8')`. -/
def utf8Encode (s : Str) : Bytes := (s.map utf8EncodeChar).flatten

/-- UTF-8 decoding of a valid byte string back to characters (used only when
rendering already-validated text into the snapshot export document). -/
def utf8Decode : Bytes → Str
  | [] => []
  | b :: rest =>
    if b < 128 then Char.ofNat b :: utf8Decode rest
    else if b < 224 then
      match rest with
      | c :: r => Char.ofNat ((b - 192) * 64 + (c - 128)) :: utf8Decode r
      | [] => []
    else if b < 240 then
      match rest with
      | c :: d :: r =>
        Char.ofNat ((b - 224) * 4096 + (c - 128) * 64 + (d - 128)) :: utf8Decode r
      | _ => []
    else
      match rest with
      | c :: d :: e :: r =>
        Char.ofNat ((b - 240) * 262144 + (c - 128) * 4096 + (d - 128) * 64 + (e - 128)) ::
          utf8Decode r
      | _ => []

/-- Entity kinds stored in LOOKUPMAP under the ENTITYTYPE key (`FILES` /
`FOLDERS`). -/
inductive EKind where
  | files
  | folders
deriving DecidableEq, Repr

/-- A LOOKUPMAP entry models the per-path inner dict: `none` is the empty dict
(no ENTITYTYPE key), `some et` is the dict holding ENTITYTYPE with value `et`
(which is itself `none` when the source stored Python `None`). -/
abbrev LEntry := Option (Option EKind)

/-- A value of the encoded DATA / EXTRAATTRS stores in the snapshot document:
either a bare JSON string (represented by its UTF-8 bytes, which for valid text
are exactly the original content bytes) or the singleton list holding the
Base64 text of the raw bytes. -/
inductive JBlob where
  | s (b : Bytes)
  | arr1 (t : Str)
deriving DecidableEq, Repr

/-- A value of the live EXTRAATTRS store.  In a freshly created filesystem all
values are `bytes`; after `load_from_json_file` the store holds the raw
document values (`wire`), because the loader only decodes the DATA store. -/
inductive XVal where
  | bytes (b : Bytes)
  | wire (j : JBlob)
deriving DecidableEq, Repr

/-- A POSIX-like attribute record, modelling the per-path `attrs` dict.  Fields
the source does not always populate (`st_size`, owner ids, timestamps) are
`Option`s: `none` means the dict has no such key. -/
structure Attr where
  st_mode : Nat
  st_nlink : Int
  st_size : Option Nat
  st_uid : Option Int
  st_gid : Option Int
  st_ctime : Option Nat
  st_mtime : Option Nat
  st_atime : Option Nat
deriving DecidableEq, Repr

/-- The aggregate `file_system` object: FSMETA (default umask) plus the four
stores. -/
structure Snapshot where
  umask : Nat
  attrs : Dict Attr
  data : Dict Bytes
  extraAttrs : Dict XVal
  lookup : Dict LEntry
deriving DecidableEq, Repr

/-- The structured snapshot document (the parsed form of the JSON text):
ATTRS, FSMETA and LOOKUPMAP are plain structured data, DATA and EXTRAATTRS
hold text-or-base64 encoded blobs. -/
structure Doc where
  umask : Nat
  attrs : Dict Attr
  data : Dict JBlob
  extraAttrs : Dict JBlob
  lookup : Dict LEntry
deriving DecidableEq, Repr

/-- Error kinds: the three `FuseOSError` codes raised by the source, plus the
uncaught Python exceptions its store accesses can raise. -/
inductive Err where
  | ENOENT
  | EEXIST
  | EINVAL
  | keyError
  | typeError
deriving DecidableEq, Repr

/-- Binary-safe encoding of one byte blob (`dump_to_json`, lines 48-51): UTF-8
decodable content is stored as bare text, anything else as the singleton list
of its Base64 encoding. -/
def encodeBlob (b : Bytes) : JBlob :=
  if utf8Valid b then .s b else .arr1 (b64encode b)

/-- The `k is not FSDATA` filter applied to every dict-valued top-level member
during encoding (for live stores the identity test coincides with equality;
see the header comment). -/
def dropFSDATA {α : Type} (m : Dict α) : Dict α :=
  m.filter (fun kv => decide (kv.1 ≠ FSDATA))

/-- Encoding of the DATA store (always byte-valued). -/
def encodeByteStore : Dict Bytes → Dict JBlob
  | [] => []
  | (k, v) :: rest =>
    if k = FSDATA then encodeByteStore rest
    else (k, encodeBlob v) :: encodeByteStore rest

/-- Encoding of the EXTRAATTRS store.  A `wire` value (present only in a state
reconstructed by the loader) makes the source raise: `inner_val.decode` raises
`AttributeError`, the bare `except` catches it, and `base64.b64encode` on a
non-bytes value then raises `TypeError`, which is not caught. -/
def encodeXStore : Dict XVal → Except Err (Dict JBlob)
  | [] => .ok []
  | (k, v) :: rest =>
    if k = FSDATA then encodeXStore rest
    else
      match v with
      | .bytes b => (encodeXStore rest).map (fun t => (k, encodeBlob b) :: t)
      | .wire _ => .error .typeError

/-- `dump_to_json` (lines 35-54), at the structured-document level: non-blob
members are copied with their FSDATA entries dropped; DATA and EXTRAATTRS are
encoded blob-wise with their FSDATA entries dropped. -/
def dump_to_json (s : Snapshot) : Except Err Doc :=
  match encodeXStore s.extraAttrs with
  | .error e => .error e
  | .ok xa =>
    .ok { umask := s.umask, attrs := dropFSDATA s.attrs,
          data := encodeByteStore s.data, extraAttrs := xa,
          lookup := dropFSDATA s.lookup }

/-- Decoding of one DATA value (`load_from_json_file`, lines 72-75): a bare
text value is re-encoded to UTF-8 bytes (the identity on our byte
representation of text), a singleton list is Base64-decoded. -/
def decodeBlob : JBlob → Bytes
  | .s b => b
  | .arr1 t => b64decode t

/-- Map over the values of a dict. -/
def mapVals {α β : Type} (f : α → β) (m : Dict α) : Dict β :=
  m.map (fun kv => (kv.1, f kv.2))

/-- `load_from_json_file` (lines 62-78), at the structured-document level:
every top-level member other than DATA is copied through unchanged — in
particular EXTRAATTRS keeps its raw document values — and only DATA is decoded
back to bytes. -/
def load_from_json (d : Doc) : Snapshot :=
  { umask := d.umask, attrs := d.attrs, data := mapVals decodeBlob d.data,
    extraAttrs := mapVals XVal.wire d.extraAttrs, lookup := d.lookup }

/-- Lexicographic (code-point) order on strings, as used by Python when
sorting dict keys. -/
def strLt : Str → Str → Bool
  | [], [] => false
  | [], _ :: _ => true
  | _ :: _, [] => false
  | a :: as, b :: bs => if a = b then strLt as bs else decide (a.toNat < b.toNat)

/-- Insertion step for key-sorting a dict. -/
def insertSorted {α : Type} (kv : Str × α) : Dict α → Dict α
  | [] => [kv]
  | x :: xs => if strLt kv.1 x.1 then kv :: x :: xs else x :: insertSorted kv xs

/-- Sort a dict by key (the `sort_keys=True` behaviour of `json.dumps`). -/
def sortByKey {α : Type} (m : Dict α) : Dict α := m.foldr insertSorted []

/-- Hexadecimal digit (lowercase), for JSON string escapes. -/
def hexDigit (n : Nat) : Char :=
  if n < 10 then Char.ofNat (48 + n) else Char.ofNat (87 + n)

/-- A JSON `\uXXXX` escape. -/
def uEscape (n : Nat) : Str :=
  '\\' :: 'u' :: [hexDigit (n / 4096 % 16), hexDigit (n / 256 % 16),
                  hexDigit (n / 16 % 16), hexDigit (n % 16)]

/-- JSON escaping of one character, following `json.dumps` with its default
`ensure_ascii=True` (non-ASCII code points become `\uXXXX` escapes, astral
ones as surrogate pairs). -/
def jsonEscapeChar (c : Char) : Str :=
  if c = '"' then ['\\', '"']
  else if c = '\\' then ['\\', '\\']
  else if c.toNat = 10 then ['\\', 'n']
  else if c.toNat = 9 then ['\\', 't']
  else if c.toNat = 13 then ['\\', 'r']
  else if c.toNat = 8 then ['\\', 'b']
  else if c.toNat = 12 then ['\\', 'f']
  else if c.toNat < 32 ∨ c.toNat > 126 then
    if c.toNat < 65536 then uEscape c.toNat
    else uEscape (55296 + (c.toNat - 65536) / 1024) ++ uEscape (56320 + (c.toNat - 65536) % 1024)
  else [c]

/-- A JSON string literal. -/
def jsonQuote (s : Str) : Str := '"' :: (s.map jsonEscapeChar).flatten ++ ['"']

/-- `n` spaces. -/
def spaces (n : Nat) : Str := List.replicate n ' '

/-- Join rendered pieces with a separator. -/
def joinStr (sep : Str) : List Str → Str
  | [] => []
  | [x] => x
  | x :: xs => x ++ sep ++ joinStr sep xs

/-- Render a JSON object at indentation `ind` from already-rendered member
values, in `json.dumps(..., indent=2)` layout. -/
def renderObj (ind : Nat) (fields : List (Str × Str)) : Str :=
  if fields.isEmpty then [Char.ofNat 123, Char.ofNat 125]
  else
    Char.ofNat 123 :: '\n' ::
      joinStr [',', '\n']
        (fields.map (fun kv => spaces (ind + 2) ++ jsonQuote kv.1 ++ ':' :: ' ' :: kv.2))
      ++ '\n' :: spaces ind ++ [Char.ofNat 125]

/-- Decimal rendering of a Nat. -/
def natStr (n : Nat) : Str := (toString n).toList

/-- Decimal rendering of an Int. -/
def intStr (i : Int) : Str := (toString i).toList

/-- Optional Nat-valued attribute field: absent fields produce no dict key. -/
def optField (k : Str) : Option Nat → List (Str × Str)
  | none => []
  | some v => [(k, natStr v)]

/-- Optional Int-valued attribute field. -/
def optFieldInt (k : Str) : Option Int → List (Str × Str)
  | none => []
  | some v => [(k, intStr v)]

/-- The members of one rendered attribute record, in sorted key order. -/
def attrFields (a : Attr) : List (Str × Str) :=
  optField ("st_atime".toList) a.st_atime ++
  optField ("st_ctime".toList) a.st_ctime ++
  optFieldInt ("st_gid".toList) a.st_gid ++
  [(("st_mode").toList, natStr a.st_mode)] ++
  optField ("st_mtime".toList) a.st_mtime ++
  [(("st_nlink").toList, intStr a.st_nlink)] ++
  optField ("st_size".toList) a.st_size ++
  optFieldInt ("st_uid".toList) a.st_uid

/-- Render one encoded blob value. -/
def renderBlob (ind : Nat) : JBlob → Str
  | .s b => jsonQuote (utf8Decode b)
  | .arr1 t => '[' :: '\n' :: spaces (ind + 2) ++ jsonQuote t ++ '\n' :: spaces ind ++ [']']

/-- Render one LOOKUPMAP entry. -/
def renderLEntry (ind : Nat) : LEntry → Str
  | none => [Char.ofNat 123, Char.ofNat 125]
  | some none => renderObj ind [(("ENTITYTYPE").toList, ("null").toList)]
  | some (some EKind.files) => renderObj ind [(("ENTITYTYPE").toList, jsonQuote ("FILES".toList))]
  | some (some EKind.folders) => renderObj ind [(("ENTITYTYPE").toList, jsonQuote ("FOLDERS".toList))]

/-- Render a store whose values render with `renderVal`, keys sorted. -/
def renderDict {α : Type} (ind : Nat) (renderVal : α → Str) (m : Dict α) : Str :=
  renderObj ind ((sortByKey m).map (fun kv => (kv.1, renderVal kv.2)))

/-- The JSON text of a snapshot document: models
`json.dumps(obj, sort_keys=True, indent=2)` on the document types of this
embedding (times are Nats here, so all numbers render as integers). -/
def serializeDoc (d : Doc) : Str :=
  renderObj 0
    [ (("ATTRS").toList, renderDict 2 (fun a => renderObj 4 (attrFields a)) d.attrs),
      (("DATA").toList, renderDict 2 (renderBlob 4) d.data),
      (("EXTRAATTRS").toList, renderDict 2 (renderBlob 4) d.extraAttrs),
      (("FSMETA").toList, renderObj 2 [(("DEFAULTUMASK").toList, natStr d.umask)]),
      (("LOOKUPMAP").toList, renderDict 2 (renderLEntry 4) d.lookup) ]

/-- The live filesystem state of the `JSONFS` class: the default umask, the
four stores with their defaultdict flags, and the handle counter. -/
structure JSONFS where
  DEFAULT_UMASK : Nat
  attrs : Dict Attr
  data : Dict Bytes
  dataDefault : Bool
  extra_attrs : Dict XVal
  extraDefault : Bool
  lookup_map : Dict LEntry
  lookupDefault : Bool
  fd : Nat
deriving DecidableEq, Repr

/-- The root attribute record built by `mkfs` (lines 112-117): note it carries
no `st_size`, `st_uid` or `st_gid` key. -/
def mkfsRoot (umask now : Nat) : Attr :=
  { st_mode := S_IFDIR ||| umask, st_nlink := 2, st_size := none,
    st_uid := none, st_gid := none,
    st_ctime := some now, st_mtime := some now, st_atime := some now }

/-- `mkfs` (lines 111-126) together with the store aliases and `fd = 0` set up
by `__init__`: empty defaultdict stores, the root attribute record, and the
root LOOKUPMAP entry. -/
def mkfs (umask now : Nat) : JSONFS :=
  { DEFAULT_UMASK := umask, fd := 0,
    attrs := [(ROOT, mkfsRoot umask now)],
    data := [], dataDefault := true,
    extra_attrs := [], extraDefault := true,
    lookup_map := [(ROOT, some (some EKind.folders))], lookupDefault := true }

/-- The `file_system` aggregate of a live state, as passed to `dump_to_json`. -/
def JSONFS.toSnapshot (fs : JSONFS) : Snapshot :=
  { umask := fs.DEFAULT_UMASK, attrs := fs.attrs, data := fs.data,
    extraAttrs := fs.extra_attrs, lookup := fs.lookup_map }

/-- `self.data[p]`: defaultdict access of the content store — returns the
entry, or inserts and returns empty bytes when the store is a defaultdict,
or raises `KeyError` on a plain dict (the store produced by the loader). -/
def JSONFS.getDataItem (fs : JSONFS) (p : Str) : Except Err Bytes × JSONFS :=
  match dictFind fs.data p with
  | some b => (.ok b, fs)
  | none =>
    if fs.dataDefault then (.ok [], { fs with data := dictSet fs.data p [] })
    else (.error .keyError, fs)

/-- `get_entity_type` (lines 105-106):
`lookup_map.setdefault(process_output(path), dict()).setdefault(ENTITY_TYPE)` —
creates a `\x7bENTITYTYPE: None\x7d` entry for an absent path (and fills in a
`None` kind on an empty inner dict), returning the stored kind. -/
def JSONFS.get_entity_type (fs : JSONFS) (path : Str) : Option EKind × JSONFS :=
  let p := process_output path
  match dictFind fs.lookup_map p with
  | some (some v) => (v, fs)
  | some none => (none, { fs with lookup_map := dictSet fs.lookup_map p (some none) })
  | none => (none, { fs with lookup_map := dictSet fs.lookup_map p (some none) })

/-- `set_entity_type` (lines 108-109):
`lookup_map[process_output(path)][ENTITY_TYPE] = entity_type`.  The outer
`__getitem__` raises `KeyError` for an absent path when the store is a plain
dict (after loading); a defaultdict creates the inner dict. -/
def JSONFS.set_entity_type (fs : JSONFS) (path : Str) (et : Option EKind) :
    Except Err Unit × JSONFS :=
  let p := process_output path
  match dictFind fs.lookup_map p with
  | some _ => (.ok (), { fs with lookup_map := dictSet fs.lookup_map p (some et) })
  | none =>
    if fs.lookupDefault then (.ok (), { fs with lookup_map := dictSet fs.lookup_map p (some et) })
    else (.error .keyError, fs)

/-- `create` (lines 157-174).  `isFsdataConst` records whether the `path`
argument is the module-level `FSDATA` string object itself (true only for the
internal call in `__init__`), which is what the identity test
`path is not FSDATA` observes. -/
def JSONFS.create (fs : JSONFS) (path : Str) (mode now : Nat) (isFsdataConst : Bool)
    (_fi : Option Nat) : Except Err Nat × JSONFS :=
  let p := process_output path
  if dictHas fs.attrs p && !isFsdataConst then (.error .EINVAL, fs)
  else
    let node : Attr :=
      { st_mode := S_IFREG ||| mode, st_nlink := 1, st_size := some 0,
        st_uid := none, st_gid := none,
        st_ctime := some now, st_mtime := some now, st_atime := some now }
    let fs1 : JSONFS :=
      { fs with attrs := dictSet fs.attrs p node,
                data := dictSet fs.data p [],
                lookup_map := dictSet fs.lookup_map p none }
    match fs1.set_entity_type p (some EKind.files) with
    | (.error e, fs2) => (.error e, fs2)
    | (.ok _, fs2) =>
      let fs3 : JSONFS := { fs2 with fd := fs2.fd + 1 }
      (.ok fs3.fd, fs3)

/-- `write` (lines 288-292): the new content is the old content clipped at
`offset` followed by `data`; `st_size` becomes the new content length; the
attribute access raises `KeyError` when the path has no attribute record. -/
def JSONFS.write (fs : JSONFS) (path : Str) (data : Bytes) (offset : Nat)
    (_fh : Option Nat) : Except Err Nat × JSONFS :=
  let p := process_output path
  match fs.getDataItem p with
  | (.error e, fs1) => (.error e, fs1)
  | (.ok b, fs1) =>
    let fs2 : JSONFS := { fs1 with data := dictSet fs1.data p (b.take offset ++ data) }
    match dictFind fs2.attrs p with
    | none => (.error .keyError, fs2)
    | some a =>
      (.ok data.length,
       { fs2 with attrs := dictSet fs2.attrs p
                    ({ a with st_size := some (b.take offset ++ data).length }) })

/-- `getattr` (lines 176-182): on the reserved export path it first writes the
freshly serialized snapshot document into that path's content, then the
attribute record is looked up. -/
def JSONFS.getattr (fs : JSONFS) (path : Str) (_fh : Option Nat) :
    Except Err Attr × JSONFS :=
  let p := process_output path
  if p = FSDATA then
    match dump_to_json fs.toSnapshot with
    | .error e => (.error e, fs)
    | .ok d =>
      match fs.write p (utf8Encode (serializeDoc d)) 0 none with
      | (.error e, fs1) => (.error e, fs1)
      | (.ok _, fs1) =>
        match dictFind fs1.attrs p with
        | none => (.error .ENOENT, fs1)
        | some a => (.ok a, fs1)
  else
    match dictFind fs.attrs p with
    | none => (.error .ENOENT, fs)
    | some a => (.ok a, fs)

/-- `mkdir` (lines 190-205): inserts the folder node, then increments the link
count of the node at `process_output(get_parent_dir(path))` — `dirname`
applied twice to the canonical path — then records the FOLDERS kind. -/
def JSONFS.mkdir (fs : JSONFS) (path : Str) (mode now : Nat) :
    Except Err Unit × JSONFS :=
  let p := process_output path
  if dictHas fs.attrs p then (.error .EEXIST, fs)
  else
    let node : Attr :=
      { st_mode := S_IFDIR ||| mode, st_nlink := 2, st_size := some 0,
        st_uid := none, st_gid := none,
        st_ctime := some now, st_mtime := some now, st_atime := some now }
    let fs1 : JSONFS := { fs with attrs := dictSet fs.attrs p node }
    let par := process_output (get_parent_dir p)
    match dictFind fs1.attrs par with
    | none => (.error .keyError, fs1)
    | some pa =>
      let fs2 : JSONFS :=
        { fs1 with attrs := dictSet fs1.attrs par ({ pa with st_nlink := pa.st_nlink + 1 }) }
      match fs2.set_entity_type p (some EKind.folders) with
      | (.error e, fs3) => (.error e, fs3)
      | (.ok _, fs3) => (.ok (), fs3)

/-- `read` (lines 211-213): the content slice `data[p][offset:offset+size]`. -/
def JSONFS.read (fs : JSONFS) (path : Str) (size offset : Nat) (_fh : Option Nat) :
    Except Err Bytes × JSONFS :=
  let p := process_output path
  match fs.getDataItem p with
  | (.error e, fs1) => (.error e, fs1)
  | (.ok b, fs1) => (.ok ((b.drop offset).take size), fs1)

/-- `rename` (lines 224-235), step by step: after moving the attribute record,
line 232 moves the extended-attribute entry, line 233 pops the same (now
absent) key again — always a `KeyError` once line 232 has run — and line 234
would store a popped extended-attribute value into the content store.  The
final arm is unreachable from any state (the pop on line 233 always raises,
since `old` was removed on line 232 and `old ≠ new` here); a wire value there
is mapped to `typeError` to keep the content store byte-typed. -/
def JSONFS.rename (fs : JSONFS) (old new : Str) : Except Err Nat × JSONFS :=
  let o := process_output old
  let n := process_output new
  if !(dictHas fs.attrs o) then (.error .ENOENT, fs)
  else if dictHas fs.attrs n then (.error .EEXIST, fs)
  else
    match dictFind fs.attrs o with
    | none => (.error .keyError, fs)
    | some a =>
      let fs1 : JSONFS := { fs with attrs := dictSet (dictPop fs.attrs o) n a }
      match dictFind fs1.extra_attrs o with
      | none => (.error .keyError, fs1)
      | some x1 =>
        let fs2 : JSONFS :=
          { fs1 with extra_attrs := dictSet (dictPop fs1.extra_attrs o) n x1 }
        match dictFind fs2.extra_attrs o with
        | none => (.error .keyError, fs2)
        | some x2 =>
          let fs3 : JSONFS :=
            { fs2 with extra_attrs := dictSet (dictPop fs2.extra_attrs o) n x2 }
          match dictFind fs3.extra_attrs o with
          | none => (.error .keyError, fs3)
          | some x3 =>
            match x3 with
            | .bytes b =>
              (.ok 0, { fs3 with extra_attrs := dictPop fs3.extra_attrs o,
                                 data := dictSet fs3.data n b })
            | .wire _ => (.error .typeError, fs3)

/-- `rmdir` (lines 237-244): pops the path from all four stores in order —
each pop raising `KeyError` when the entry is absent — then decrements the
link count at `get_parent_dir(path)` (note: not canonicalized here). -/
def JSONFS.rmdir (fs : JSONFS) (path : Str) : Except Err Unit × JSONFS :=
  let p := process_output path
  match dictFind fs.attrs p with
  | none => (.error .keyError, fs)
  | some _ =>
    let fs1 : JSONFS := { fs with attrs := dictPop fs.attrs p }
    match dictFind fs1.lookup_map p with
    | none => (.error .keyError, fs1)
    | some _ =>
      let fs2 : JSONFS := { fs1 with lookup_map := dictPop fs1.lookup_map p }
      match dictFind fs2.extra_attrs p with
      | none => (.error .keyError, fs2)
      | some _ =>
        let fs3 : JSONFS := { fs2 with extra_attrs := dictPop fs2.extra_attrs p }
        match dictFind fs3.data p with
        | none => (.error .keyError, fs3)
        | some _ =>
          let fs4 : JSONFS := { fs3 with data := dictPop fs3.data p }
          let par := get_parent_dir p
          match dictFind fs4.attrs par with
          | none => (.error .keyError, fs4)
          | some pa =>
            let pa2 : Attr := { pa with st_nlink := pa.st_nlink - 1 }
            (.ok (), { fs4 with attrs := dictSet fs4.attrs par pa2 })

/-- `symlink` (lines 250-257): stores the link node under the raw,
non-canonicalized `target` key, then records under `process_output(target)`
the entity kind read from `source` (creating a `None`-kind LOOKUPMAP entry for
`source` when it is absent). -/
def JSONFS.symlink (fs : JSONFS) (target source : Str) : Except Err Nat × JSONFS :=
  let node : Attr :=
    { st_mode := S_IFLNK ||| 511, st_nlink := 1, st_size := some source.length,
      st_uid := none, st_gid := none, st_ctime := none, st_mtime := none, st_atime := none }
  let fs1 : JSONFS := { fs with attrs := dictSet fs.attrs target node }
  match fs1.get_entity_type source with
  | (et, fs2) =>
    match fs2.set_entity_type target et with
    | (.error e, fs3) => (.error e, fs3)
    | (.ok _, fs3) => (.ok 0, fs3)

/-- `truncate` (lines 259-266): checks existence, clips the content to
`length` bytes (clip only — the slice never grows the content), and sets
`st_size` to `length` unconditionally. -/
def JSONFS.truncate (fs : JSONFS) (path : Str) (length : Nat) (_fh : Option Nat) :
    Except Err Nat × JSONFS :=
  let p := process_output path
  if !(dictHas fs.attrs p) then (.error .ENOENT, fs)
  else
    match fs.getDataItem p with
    | (.error e, fs1) => (.error e, fs1)
    | (.ok b, fs1) =>
      let fs2 : JSONFS := { fs1 with data := dictSet fs1.data p (b.take length) }
      match dictFind fs2.attrs p with
      | none => (.error .keyError, fs2)
      | some a =>
        (.ok 0, { fs2 with attrs := dictSet fs2.attrs p ({ a with st_size := some length }) })

/-- `unlink` (lines 268-276): checks existence, then pops the path from the
content, attribute, extended-attribute and lookup stores in that order (each
pop raising `KeyError` when the entry is absent). -/
def JSONFS.unlink (fs : JSONFS) (path : Str) : Except Err Nat × JSONFS :=
  let p := process_output path
  if !(dictHas fs.attrs p) then (.error .ENOENT, fs)
  else
    match dictFind fs.data p with
    | none => (.error .keyError, fs)
    | some _ =>
      let fs1 : JSONFS := { fs with data := dictPop fs.data p }
      match dictFind fs1.attrs p with
      | none => (.error .keyError, fs1)
      | some _ =>
        let fs2 : JSONFS := { fs1 with attrs := dictPop fs1.attrs p }
        match dictFind fs2.extra_attrs p with
        | none => (.error .keyError, fs2)
        | some _ =>
          let fs3 : JSONFS := { fs2 with extra_attrs := dictPop fs2.extra_attrs p }
          match dictFind fs3.lookup_map p with
          | none => (.error .keyError, fs3)
          | some _ =>
            (.ok 0, { fs3 with lookup_map := dictPop fs3.lookup_map p })

/-- A freshly created filesystem: `__init__` with `create_file_system=True` —
`mkfs` followed by the internal `create(FSDATA, 33204)` (which passes the
module-level FSDATA object, so the identity guard is bypassed). -/
def freshFS (umask now : Nat) : JSONFS :=
  ((mkfs umask now).create FSDATA 33204 now true none).2

/-- `__init__` with `create_file_system=False`: the stores come from
`load_from_json_file` — plain dicts, no defaultdict behaviour — followed by
the internal `create(FSDATA, 33204)`. -/
def initFromDoc (d : Doc) (now : Nat) : JSONFS :=
  let s := load_from_json d
  let fs : JSONFS :=
    { DEFAULT_UMASK := s.umask, attrs := s.attrs,
      data := s.data, dataDefault := false,
      extra_attrs := s.extraAttrs, extraDefault := false,
      lookup_map := s.lookup, lookupDefault := false, fd := 0 }
  (fs.create FSDATA 33204 now true none).2

/-- The "p" path key used by the snapshot round-trip scenario. -/
def p0 : Str := "p".toList

/-- An attribute record for a two-byte regular file (mode 0o644). -/
def fileAttr0 : Attr :=
  { st_mode := 33188, st_nlink := 1, st_size := some 2, st_uid := none, st_gid := none,
    st_ctime := some 0, st_mtime := some 0, st_atime := some 0 }

/-- A live snapshot holding one regular file "p" with UTF-8 content
`b"hi"` and a non-UTF-8 extended-attribute blob `b"\xff"`. -/
def S0 : Snapshot :=
  { umask := 18,
    attrs := [(ROOT, mkfsRoot 18 0), (p0, fileAttr0)],
    data := [(p0, [104, 105])],
    extraAttrs := [(p0, XVal.bytes [255])],
    lookup := [(ROOT, some (some EKind.folders)), (p0, some (some EKind.files))] }

/-- A minimal, well-formed snapshot document (root only). -/
def doc0 : Doc :=
  { umask := 18, attrs := [(ROOT, mkfsRoot 18 0)], data := [], extraAttrs := [],
    lookup := [(ROOT, some (some EKind.folders))] }

/-- The filesystem reconstructed from `doc0`: its stores are plain dicts. -/
def fsL : JSONFS := initFromDoc doc0 0

/-- Fresh filesystem with file "f" created (mode 0o644). -/
def fsW0 : JSONFS := ((freshFS 18 0).create ("/f".toList) 420 1 false none).2

/-- ... and content `b"abcdef"` written at offset 0. -/
def fsW1 : JSONFS := (fsW0.write ("/f".toList) [97, 98, 99, 100, 101, 102] 0 none).2

/-- ... and then `b"X"` written at offset 1. -/
def fsW2 : Except Err Nat × JSONFS := fsW1.write ("/f".toList) [88] 1 none

/-- The attribute record of "f" in `fsW1` (size 6 after the first write). -/
def fAttr6 : Attr :=
  { st_mode := 33188, st_nlink := 1, st_size := some 6, st_uid := none, st_gid := none,
    st_ctime := some 1, st_mtime := some 1, st_atime := some 1 }

/-- Fresh filesystem with file "x" created (mode 0o644). -/
def fsX : JSONFS := ((freshFS 18 0).create ("/x".toList) 420 1 false none).2

/-- The rename of "x" to "y" on `fsX`. -/
def renX : Except Err Nat × JSONFS := fsX.rename ("/x".toList) ("/y".toList)

/-- A symlink created at "/t" pointing to "s" on a fresh filesystem. -/
def symT : Except Err Nat × JSONFS := (freshFS 18 0).symlink ("/t".toList) ("s".toList)

/-- `removeDirectory` applied to the root path on a fresh filesystem. -/
def rmRoot : Except Err Unit × JSONFS := (freshFS 18 0).rmdir ("/".toList)

/-- Fresh filesystem with directory "d" made (mode 0o755). -/
def fsD1 : JSONFS := ((freshFS 18 0).mkdir ("/d".toList) 493 1).2

/-- ... and nested directory "d/e" made. -/
def fsD2 : JSONFS := (fsD1.mkdir ("/d/e".toList) 493 2).2

/-- `truncate("/f", 5)` on the zero-length file of `fsW0`. -/
def trF : Except Err Nat × JSONFS := fsW0.truncate ("/f".toList) 5 none

/-- A second `create` of the already existing "f". -/
def crF : Except Err Nat × JSONFS := fsW0.create ("/f".toList) 420 2 false none

theorem dictFind_dictSet_self {α : Type} (m : Dict α) (k : Str) (v : α) :
    dictFind (dictSet m k v) k = some v := by
  induction m with
  | nil => simp [dictSet, dictFind]
  | cons kv rest ih =>
    obtain ⟨kk, w⟩ := kv
    by_cases h : kk = k
    · simp [dictSet, dictFind, h]
    · simp [dictSet, dictFind, h, ih]

theorem slice_of_splice (c data : Bytes) (offset : Nat) (h : offset ≤ c.length) :
    ((c.take offset ++ data).drop offset).take data.length = data := by
  have h1 : (c.take offset).length = offset := by
    rw [List.length_take]
    exact Nat.min_eq_left h
  generalize hl : c.take offset = l at h1 ⊢
  rw [← h1, List.drop_left, List.take_length]

/-- Claim C1 (code bug in the loader): decoding the encoded snapshot does not
reproduce `S0`.  The encoder turns the non-UTF-8 extended-attribute blob of
"p" into the singleton Base64 list, but the loader copies EXTRAATTRS through
undecoded (it only special-cases DATA), so the reconstructed store still holds
the wire value, not the byte blob; the DATA store itself does round-trip. -/
theorem c1_roundtrip_fails_on_extraattrs :
    (dump_to_json S0).toOption.map load_from_json ≠ some S0
    ∧ (dump_to_json S0).toOption.map (fun d => dictFind (load_from_json d).extraAttrs p0)
        = some (some (XVal.wire (JBlob.arr1 ("/w==".toList))))
    ∧ dictFind S0.extraAttrs p0 = some (XVal.bytes [255])
    ∧ (dump_to_json S0).toOption.map (fun d => (load_from_json d).data) = some S0.data :=
  ⟨by decide, by decide, by decide, by decide⟩

/-- Claim C2 (code bug in `rename`): on `createFile("x"); rename("x","y")` the
rename raises `KeyError` (the duplicated `extra_attrs.pop(old)` on lines
232-233 — here already the first pop, since `create` never populates the
extended-attribute store), after having moved only the attribute record: the
content stays at "x", nothing is at "y" in the content store, and the
entity-type index still maps "x" and not "y". -/
theorem c2_rename_raises_and_moves_only_attrs :
    renX.1 = Except.error Err.keyError
    ∧ dictFind renX.2.attrs ("x".toList) = none
    ∧ (dictFind renX.2.attrs ("y".toList)).isSome = true
    ∧ dictFind renX.2.data ("x".toList) = some []
    ∧ dictFind renX.2.data ("y".toList) = none
    ∧ dictFind renX.2.lookup_map ("x".toList) = some (some (some EKind.files))
    ∧ dictFind renX.2.lookup_map ("y".toList) = none :=
  ⟨rfl, by decide, by decide, by decide, by decide, by decide, by decide⟩

/-- Claim C3 (code bug): the AttributeStore / EntityTypeIndex correspondence
is not preserved.  After `symlink("/t", "s")` on a fresh filesystem, the index
has gained an entry for the absent source "s" (with a `None` kind) that has no
attribute record, while the attribute record was stored under the raw key
"/t", for which the index has no entry (it recorded the canonical "t"). -/
theorem c3_symlink_breaks_store_correspondence :
    symT.1 = Except.ok 0
    ∧ dictFind symT.2.lookup_map ("s".toList) = some (some none)
    ∧ dictFind symT.2.attrs ("s".toList) = none
    ∧ (dictFind symT.2.attrs ("/t".toList)).isSome = true
    ∧ dictFind symT.2.lookup_map ("/t".toList) = none :=
  ⟨rfl, by decide, by decide, by decide, by decide⟩

/-- Claim C7 (code bug): `mkdir("d"); mkdir("d/e")` must, per the claim, raise
"d"'s link count to 3 and leave the root at 3; instead `get_parent_dir`
(dirname applied twice) selects the root for the nested path, so the root's
link count becomes 4 while "d" stays at 2. -/
theorem c7_mkdir_increments_root_not_parent :
    (dictFind fsD2.attrs ("d".toList)).map Attr.st_nlink = some 2
    ∧ (dictFind fsD2.attrs ROOT).map Attr.st_nlink = some 4 :=
  ⟨by decide, by decide⟩

/-- Claim C8 (code bug): `rmdir` has no root guard — applied to "/" it pops
the root's attribute record and entity-type entry (then raises `KeyError` on
the extended-attribute pop), leaving a state with no root. -/
theorem c8_rmdir_removes_root :
    rmRoot.1 = Except.error Err.keyError
    ∧ dictFind rmRoot.2.attrs ROOT = none
    ∧ dictFind rmRoot.2.lookup_map ROOT = none :=
  ⟨rfl, by decide, by decide⟩

/-- Claim C4 counterexample: with content `b"abcdef"`, `write(b"X", 1)`
produces `b"aX"` — the bytes located after `offset + len(data)` (positions 2
and beyond) are not preserved, contradicting the claim. -/
theorem c4_write_drops_suffix_counterexample :
    fsW2.1 = Except.ok 1
    ∧ dictFind fsW2.2.data ("f".toList) = some [97, 88]
    ∧ dictFind fsW2.2.data ("f".toList) ≠ some [97, 88, 99, 100, 101, 102] :=
  ⟨rfl, by decide, by decide⟩

/-- Claim C6 counterexample: truncating the empty file "f" to length 5
succeeds and sets `st_size` to 5, while the content remains empty — the size
field does not equal the DataStore entry's byte length, contradicting the
claim for lengths beyond the current content. -/
theorem c6_truncate_size_mismatch_counterexample :
    trF.1 = Except.ok 0
    ∧ (trF.2.getattr ("/f".toList) none).1
        = Except.ok ({ st_mode := 33188, st_nlink := 1, st_size := some 5, st_uid := none,
                       st_gid := none, st_ctime := some 1, st_mtime := some 1,
                       st_atime := some 1 })
    ∧ dictFind trF.2.data ("f".toList) = some []
    ∧ (5 : Nat) ≠ List.length ([] : Bytes) :=
  ⟨rfl, rfl, by decide, by decide⟩

/-- Claim C9 counterexample: re-creating the existing "f" fails with
`EINVAL` (InvalidArgument), not `EEXIST` (AlreadyExists) as the claim
states. -/
theorem c9_create_raises_einval_counterexample :
    crF.1 = Except.error Err.EINVAL ∧ Err.EINVAL ≠ Err.EEXIST :=
  ⟨rfl, by decide⟩

/-- Claim C10 counterexample: in the state reconstructed from a snapshot
document the content store is a plain dict, so reading an absent path raises
`KeyError` instead of returning empty bytes. -/
theorem c10_read_after_load_raises_counterexample :
    (fsL.read ("/q".toList) 4 0 none).1 = Except.error Err.keyError := rfl

/-- Claim C4 (amended): for a path with an existing content entry `c` and an
attribute record, `write(path, data, offset)` sets the content to
`c[:offset] ++ data` — the bytes of `c` before `offset` are preserved, any
bytes of `c` from `offset` onward (in particular those after
`offset + len(data)`) are discarded, a gap before `offset` beyond `len(c)` is
not zero-filled — sets `st_size` to the new content length, and returns
`len(data)`. -/
theorem c4_write_amended (fs : JSONFS) (path : Str) (c data : Bytes) (a : Attr)
    (offset : Nat) (fh : Option Nat)
    (hd : dictFind fs.data (process_output path) = some c)
    (ha : dictFind fs.attrs (process_output path) = some a) :
    (fs.write path data offset fh).1 = Except.ok data.length
    ∧ dictFind (fs.write path data offset fh).2.data (process_output path)
        = some (c.take offset ++ data)
    ∧ dictFind (fs.write path data offset fh).2.attrs (process_output path)
        = some ({ a with st_size := some (c.take offset ++ data).length }) := by
  refine ⟨?_, ?_, ?_⟩ <;>
    simp [JSONFS.write, JSONFS.getDataItem, hd, ha, dictFind_dictSet_self]

/-- Claim C5 (confirmed): writing `data` at `offset ≤ len(c)` and then reading
`len(data)` bytes from `offset` returns exactly `data`. -/
theorem c5_write_then_read (fs : JSONFS) (path : Str) (c data : Bytes) (a : Attr)
    (offset : Nat) (fh1 fh2 : Option Nat)
    (hd : dictFind fs.data (process_output path) = some c)
    (ha : dictFind fs.attrs (process_output path) = some a)
    (hoff : offset ≤ c.length) :
    (((fs.write path data offset fh1).2).read path data.length offset fh2).1
      = Except.ok data := by
  have hpost : dictFind ((fs.write path data offset fh1).2).data (process_output path)
      = some (c.take offset ++ data) := by
    simp [JSONFS.write, JSONFS.getDataItem, hd, ha, dictFind_dictSet_self]
  simp [JSONFS.read, JSONFS.getDataItem, hpost, slice_of_splice c data offset hoff]

/-- Claim C6 (amended): for an existing non-reserved path with content `c` and
`n ≤ len(c)`, `truncate(path, n)` succeeds, clips the content to exactly the
first `n` bytes (clip only, no growth), and afterwards `getattr` reports
`st_size = n`, which equals the DataStore entry's byte length; `truncate` on a
path with no attribute record fails with `ENOENT`.  The amendment restricts
the size/content agreement to `n` within the current length — for larger `n`
the source sets `st_size := n` without growing the content. -/
theorem c6_truncate_amended :
    (∀ (fs : JSONFS) (path : Str) (c : Bytes) (a : Attr) (n : Nat) (fh : Option Nat),
        dictFind fs.attrs (process_output path) = some a →
        dictFind fs.data (process_output path) = some c →
        n ≤ c.length →
        process_output path ≠ FSDATA →
        (fs.truncate path n fh).1 = Except.ok 0
        ∧ dictFind (fs.truncate path n fh).2.data (process_output path) = some (c.take n)
        ∧ (c.take n).length = n
        ∧ (((fs.truncate path n fh).2).getattr path none).1
            = Except.ok ({ a with st_size := some n }))
    ∧ (∀ (fs : JSONFS) (path : Str) (n : Nat) (fh : Option Nat),
        dictFind fs.attrs (process_output path) = none →
        (fs.truncate path n fh).1 = Except.error Err.ENOENT) := by
  constructor
  · intro fs path c a n fh ha hd hn hne
    refine ⟨?_, ?_, ?_, ?_⟩
    · simp [JSONFS.truncate, JSONFS.getDataItem, dictHas, ha, hd]
    · simp [JSONFS.truncate, JSONFS.getDataItem, dictHas, ha, hd, dictFind_dictSet_self]
    · rw [List.length_take]
      exact Nat.min_eq_left hn
    · simp [JSONFS.truncate, JSONFS.getDataItem, JSONFS.getattr, dictHas, ha, hd, hne,
            dictFind_dictSet_self]
  · intro fs path n fh ha
    simp [JSONFS.truncate, dictHas, ha]

/-- Claim C9 (amended): an external `createFile` fails exactly when the
canonical path is already present in the attribute store, but the error kind
is `EINVAL` (InvalidArgument) — still one of the three named kinds — not
`EEXIST` as claimed; a failed create leaves the state unchanged.  When the
path is absent (and canonicalization has stabilized, as for every
well-formed host path), it inserts a File entity with mode
`S_IFREG ||| mode`, empty content, zero size, and the FILES kind, returning
the next handle. -/
theorem c9_create_amended :
    (∀ (fs : JSONFS) (path : Str) (mode now : Nat) (fi : Option Nat),
        dictHas fs.attrs (process_output path) = true →
        (fs.create path mode now false fi).1 = Except.error Err.EINVAL
        ∧ (fs.create path mode now false fi).2 = fs)
    ∧ (∀ (fs : JSONFS) (path : Str) (mode now : Nat) (fi : Option Nat),
        dictHas fs.attrs (process_output path) = false →
        process_output (process_output path) = process_output path →
        (fs.create path mode now false fi).1 = Except.ok (fs.fd + 1)
        ∧ dictFind (fs.create path mode now false fi).2.attrs (process_output path)
            = some ({ st_mode := S_IFREG ||| mode, st_nlink := 1, st_size := some 0,
                      st_uid := none, st_gid := none, st_ctime := some now,
                      st_mtime := some now, st_atime := some now })
        ∧ dictFind (fs.create path mode now false fi).2.data (process_output path) = some []
        ∧ dictFind (fs.create path mode now false fi).2.lookup_map (process_output path)
            = some (some (some EKind.files))) := by
  constructor
  · intro fs path mode now fi h
    constructor <;> simp [JSONFS.create, h]
  · intro fs path mode now fi h hidem
    refine ⟨?_, ?_, ?_, ?_⟩ <;>
      simp [JSONFS.create, JSONFS.set_entity_type, h, hidem, dictFind_dictSet_self]

/-- Claim C10 (amended): on a content store with defaultdict semantics — the
store of every freshly created filesystem — reading any absent path returns
empty bytes and never fails, for every size and offset.  The claim's
extension to decoded states fails: the loader produces plain dicts (see the
counterexample). -/
theorem c10_read_amended (fs : JSONFS) (path : Str) (size offset : Nat) (fh : Option Nat)
    (hdefault : fs.dataDefault = true)
    (habsent : dictFind fs.data (process_output path) = none) :
    (fs.read path size offset fh).1 = Except.ok [] := by
  simp [JSONFS.read, JSONFS.getDataItem, habsent, hdefault]

/-- Witness for the amended C4 at a concrete input: writing `b"X"` at offset 1
into `b"abcdef"`. -/
theorem c4_write_amended_witness :
    (fsW1.write ("/f".toList) [88] 1 none).1 = Except.ok 1
    ∧ dictFind (fsW1.write ("/f".toList) [88] 1 none).2.data (process_output ("/f".toList))
        = some ([97, 88] : Bytes)
    ∧ dictFind (fsW1.write ("/f".toList) [88] 1 none).2.attrs (process_output ("/f".toList))
        = some ({ fAttr6 with st_size := some 2 }) :=
  c4_write_amended fsW1 ("/f".toList) [97, 98, 99, 100, 101, 102] [88] fAttr6 1 none
    (by decide) (by decide)

/-- Witness for C5 at a concrete input: write `b"X"` at offset 1 into
`b"abcdef"`, then read one byte at offset 1. -/
theorem c5_write_then_read_witness :
    (((fsW1.write ("/f".toList) [88] 1 none).2).read ("/f".toList) 1 1 none).1
      = Except.ok ([88] : Bytes) :=
  c5_write_then_read fsW1 ("/f".toList) [97, 98, 99, 100, 101, 102] [88] fAttr6 1 none none
    (by decide) (by decide) (by decide)

/-- Witness for the amended C6 at concrete inputs: truncating `b"abcdef"` to
2 bytes, and truncating an absent path. -/
theorem c6_truncate_amended_witness :
    ((fsW1.truncate ("/f".toList) 2 none).1 = Except.ok 0
      ∧ dictFind (fsW1.truncate ("/f".toList) 2 none).2.data (process_output ("/f".toList))
          = some ([97, 98] : Bytes)
      ∧ (List.take 2 ([97, 98, 99, 100, 101, 102] : Bytes)).length = 2
      ∧ (((fsW1.truncate ("/f".toList) 2 none).2).getattr ("/f".toList) none).1
          = Except.ok ({ fAttr6 with st_size := some 2 }))
    ∧ ((freshFS 18 0).truncate ("/zz".toList) 3 none).1 = Except.error Err.ENOENT :=
  ⟨c6_truncate_amended.1 fsW1 ("/f".toList) [97, 98, 99, 100, 101, 102] fAttr6 2 none
      (by decide) (by decide) (by decide) (by decide),
   c6_truncate_amended.2 (freshFS 18 0) ("/zz".toList) 3 none (by decide)⟩

/-- Witness for the amended C9 at concrete inputs: re-creating the existing
"f", and creating the fresh "g". -/
theorem c9_create_amended_witness :
    ((fsW0.create ("/f".toList) 420 2 false none).1 = Except.error Err.EINVAL
      ∧ (fsW0.create ("/f".toList) 420 2 false none).2 = fsW0)
    ∧ (((freshFS 18 0).create ("/g".toList) 420 1 false none).1 = Except.ok 2
      ∧ dictFind ((freshFS 18 0).create ("/g".toList) 420 1 false none).2.attrs
          (process_output ("/g".toList))
          = some ({ st_mode := S_IFREG ||| 420, st_nlink := 1, st_size := some 0,
                    st_uid := none, st_gid := none, st_ctime := some 1,
                    st_mtime := some 1, st_atime := some 1 })
      ∧ dictFind ((freshFS 18 0).create ("/g".toList) 420 1 false none).2.data
          (process_output ("/g".toList)) = some []
      ∧ dictFind ((freshFS 18 0).create ("/g".toList) 420 1 false none).2.lookup_map
          (process_output ("/g".toList)) = some (some (some EKind.files))) :=
  ⟨c9_create_amended.1 fsW0 ("/f".toList) 420 2 none (by decide),
   c9_create_amended.2 (freshFS 18 0) ("/g".toList) 420 1 none (by decide) (by decide)⟩

/-- Witness for the amended C10 at a concrete input: reading the absent
"/zz" on a fresh filesystem. -/
theorem c10_read_amended_witness :
    ((freshFS 18 0).read ("/zz".toList) 4 0 none).1 = Except.ok ([] : Bytes) :=
  c10_read_amended (freshFS 18 0) ("/zz".toList) 4 0 none (by decide) (by decide)
